import Mathlib

/-
Verification of the producer service of LookingGlass (src/host/Service.cpp).

The embedding models:
  * the layout planner `Service::InitPointers` and the size/frame-size checks of
    `Service::Initialize` (ALIGN_DN / ALIGN_UP, the cursor region, the frame ring);
  * one `Service::Process` cycle: the consumer-RESTART handler, the two-attempt
    capture loop, the frame-publish handshake (busy-wait on the frame UPDATE bit
    with the RESTART escape hatch), the slot-index arithmetic, and the final
    interlocked AND on the global flags byte;
  * the cursor channel: the staging merge done by `Process` and one drain
    iteration of `Service::CursorThread`.

Machine integers are modelled by `Nat`/`Int`; the single `size_t` subtraction
that can wrap (`GetSize() - (m_frames - m_memory)` in `InitPointers`) is
modelled explicitly modulo 2^64.  Shared-memory writes performed while
publishing a frame are recorded as an event trace; each event records the
shared frame descriptor's UPDATE bit, the header RESTART bit and the advertised
`dataPos` at the moment of the write, so handshake invariants can be stated
about traces.  The consumer is modelled by explicit actions (clear the frame
UPDATE bit, raise the header RESTART bit) interleaved at the producer's
busy-wait iterations and between cycles.  OS waits that touch no shared state
(session-switch polling, `CanInitialize` polling, `Sleep`) are abstracted away.
-/

set_option maxRecDepth 10000

/- ------------------------------------------------------------------ -/
/- Layout planner: Service::InitPointers / Service::Initialize         -/
/- ------------------------------------------------------------------ -/

/-- `ALIGN_DN(x) = x & ~0x7F`: clear the low 7 bits, i.e. round down to a
multiple of 128 (values are below 2^64 in the C code, so this is `x - x % 128`). -/
def alignDn (x : Nat) : Nat := x - x % 128

/-- `ALIGN_UP(x) = ALIGN_DN(x + 0x7F)`. -/
def alignUp (x : Nat) : Nat := alignDn (x + 127)

/-- The geometry computed by `Service::InitPointers`: offsets are relative to
the base of the mapped region (`m_memory`). -/
structure Layout where
  cursorOffset : Nat
  cursorDataSize : Nat
  framesOffset : Nat
  frameSize : Nat
deriving DecidableEq

/-- `Service::InitPointers`.  `hdrSize` stands for `sizeof(KVMFRHeader)` and
`maxFrames` for `MAX_FRAMES` (both live in headers outside src/, so they are
parameters).  The cursor region is 1 MiB, placed after the header aligned up to
128 bytes on the absolute address; the frame ring follows, and the per-slot
size is `ALIGN_DN((size - (m_frames - m_memory)) / MAX_FRAMES)` where the
subtraction is `size_t` arithmetic (wraps modulo 2^64 when the region is too
small for the cursor area). -/
def initPointers (hdrSize maxFrames base size : Nat) : Layout :=
  { cursorOffset := alignUp (base + hdrSize) - base
    cursorDataSize := 1048576
    framesOffset := alignUp (alignUp (base + hdrSize) + 1048576) - base
    frameSize := alignDn (((18446744073709551616 + size) -
        (alignUp (alignUp (base + hdrSize) + 1048576) - base)) % 18446744073709551616
        / maxFrames) }

inductive InitError
  | shmemTooSmall
  | frameTooBig
deriving DecidableEq

/-- The size validation of `Service::Initialize`: reject when the mapped region
is smaller than the header (before any pointer into the region is formed), then
compute the layout and reject when the capture backend's maximum frame size
exceeds the per-slot size.  `maxFrameSize` stands for
`m_capture->GetMaxFrameSize()`. -/
def serviceInit (hdrSize maxFrames base size maxFrameSize : Nat) : Except InitError Layout :=
  if size < hdrSize then .error .shmemTooSmall
  else
    let L := initPointers hdrSize maxFrames base size
    if L.frameSize < maxFrameSize then .error .frameTooBig
    else .ok L

/- ------------------------------------------------------------------ -/
/- Shared-memory state for the frame channel                           -/
/- ------------------------------------------------------------------ -/

/-- The `KVMFRFrame` descriptor embedded in the shared header.
Modelled from the spec: `common/KVMFR.h` is not under src/; §6 of the spec
fixes the frame flags byte as bit0 = UPDATE. -/
structure FrameDesc where
  ftype : Nat
  width : Nat
  height : Nat
  stride : Nat
  pitch : Nat
  dataPos : Nat
  flags : Nat
deriving DecidableEq

/-- The shared header state this verification needs: the global flags byte and
the embedded frame descriptor.
Modelled from the spec: §6 fixes the global flags byte as bit0 = RESTART
(consumer-set), bit1 = PAUSED (producer-set). -/
structure Shared where
  flags : Nat
  frame : FrameDesc
deriving DecidableEq

/-- Test of `fi->flags & KVMFR_FRAME_FLAG_UPDATE`. -/
def updBit (sh : Shared) : Bool := sh.frame.flags &&& 1 == 1

/-- Test of `*flags & KVMFR_HEADER_FLAG_RESTART`. -/
def restartBit (sh : Shared) : Bool := sh.flags &&& 1 == 1

/-- `*flags |= KVMFR_HEADER_FLAG_PAUSED`. -/
def pausedSet (sh : Shared) : Shared := { sh with flags := sh.flags ||| 2 }

/-- `*flags &= ~KVMFR_HEADER_FLAG_PAUSED` (byte-wide complement). -/
def pausedClear (sh : Shared) : Shared := { sh with flags := sh.flags &&& 253 }

/-- `INTERLOCKED_AND8(flags, ~KVMFR_HEADER_FLAG_RESTART)` in the restart handler. -/
def clearRestart (sh : Shared) : Shared := { sh with flags := sh.flags &&& 254 }

/-- `fi->flags |= KVMFR_FRAME_FLAG_UPDATE`. -/
def setUpd (sh : Shared) : Shared :=
  { sh with frame := { sh.frame with flags := sh.frame.flags ||| 1 } }

/-- The end-of-cycle `INTERLOCKED_AND8(flags, KVMFR_HEADER_FLAG_RESTART)`:
every bit of the global flags byte except RESTART is cleared atomically. -/
def finalAnd (sh : Shared) : Shared := { sh with flags := sh.flags &&& 1 }

/-- Consumer actions on shared memory.
Modelled from the spec: the consumer (outside this repository) clears the frame
UPDATE bit after copying a frame and raises the header RESTART bit to request a
reset; it never sets UPDATE and never clears RESTART. -/
inductive CAct
  | clearUpdate
  | setRestart
deriving DecidableEq

def applyAct : CAct → Shared → Shared
  | .clearUpdate, sh => { sh with frame := { sh.frame with flags := sh.frame.flags &&& 254 } }
  | .setRestart, sh => { sh with flags := sh.flags ||| 1 }

def applyActs (acts : List CAct) (sh : Shared) : Shared :=
  acts.foldl (fun s a => applyAct a s) sh

/-- The producer's busy-wait
`while (fi->flags & KVMFR_FRAME_FLAG_UPDATE) { if (*flags & KVMFR_HEADER_FLAG_RESTART) break; }`.
One consumer action may occur per spin iteration; when the schedule is
exhausted and the loop cannot exit, the wait blocks (`none`). -/
def spinWait : Shared → List CAct → Option Shared
  | sh, acts =>
    if updBit sh = false then some sh
    else if restartBit sh then some sh
    else
      match acts with
      | [] => none
      | a :: rest => spinWait (applyAct a sh) rest

/- ------------------------------------------------------------------ -/
/- The Process cycle                                                   -/
/- ------------------------------------------------------------------ -/

/-- Results of `m_capture->Capture()` (`GrabStatus` in the capture contract). -/
inductive GrabStatus
  | ok
  | timeout
  | cursor
  | error
  | reinit
deriving DecidableEq

/-- Producer-private state across cycles: `m_haveFrame` and `m_frameIndex`
(an `int` in the C code). -/
structure ProdState where
  haveFrame : Bool
  frameIndex : Int
deriving DecidableEq

/-- `if (--m_frameIndex < 0) m_frameIndex = MAX_FRAMES - 1;` -/
def rewindIdx (i : Int) (n : Nat) : Int :=
  if i - 1 < 0 then (n : Int) - 1 else i - 1

/-- `if (++m_frameIndex == MAX_FRAMES) m_frameIndex = 0;` -/
def advanceIdx (i : Int) (n : Nat) : Int :=
  if i + 1 = (n : Int) then 0 else i + 1

/-- Fixed per-service data for one cycle: the immutable geometry
(`m_frameSize`, the slot offsets), `MAX_FRAMES`, the backend's
`GetMaxFrameSize()` and frame metadata, and whether `ReInitialize()` and
`GetFrame()` succeed when called during the cycle. -/
structure Config where
  maxFrames : Nat
  frameSize : Nat
  framesOffset : Nat
  maxFrameSize : Nat
  ftype : Nat
  fwidth : Nat
  fheight : Nat
  fstride : Nat
  fpitch : Nat
  reinitOk : Bool
  getFrameOk : Bool
deriving DecidableEq

/-- `m_dataOffset[i] = m_frame[i] - m_memory`. -/
def slotOffset (cfg : Config) (i : Nat) : Nat := cfg.framesOffset + i * cfg.frameSize

/-- Shared-memory write events of the frame channel, each recording the frame
UPDATE bit, the header RESTART bit, and (for pixel writes) the advertised
`dataPos` at the moment of the write. -/
inductive Ev
  | pixelWrite (target advertised : Nat) (upd restart : Bool)
  | waitExit (stillSet : Bool)
  | descWrite (upd restart : Bool)
  | setUpdate (upd restart : Bool)
deriving DecidableEq

/-- Exit of the capture loop `for (int i = 0; i < 2; ++i) { switch (m_capture->Capture()) ... }`. -/
inductive CapResult
  | proceed (rep cOnly : Bool)
  | capFail
  | exhausted
deriving DecidableEq

/-- The value `Service::Process` hands back to its caller. `getFrameFailed`
models the early `return result` when `m_capture->GetFrame` is not OK. -/
inductive Outcome
  | success
  | failure
  | getFrameFailed
deriving DecidableEq

/-- The capture loop of `Service::Process` (lines 200-267).  `budget` is
`2 - i`; the count returned with the result is the number of budget-consuming
capture attempts (GRAB_STATUS_OK / CURSOR / ERROR) processed.  A timeout when
a frame was already published rewinds the slot index and proceeds as a repeat;
a timeout with no prior frame and a (successful, still-fitting) reinitialize
retry the capture without consuming the budget (`--i; continue;`).  The reinit
case raises PAUSED first and, on a failed reinitialize or a frame size that no
longer fits, fails the cycle with PAUSED still set. -/
def capLoop (cfg : Config) (budget count : Nat) (ps : ProdState) :
    Shared → List GrabStatus → Option (CapResult × Shared × ProdState × Nat)
  | sh, caps =>
    if budget = 0 then some (.exhausted, sh, ps, count)
    else
      match caps with
      | [] => none
      | GrabStatus.ok :: _ => some (.proceed false false, sh, ps, count + 1)
      | GrabStatus.cursor :: _ => some (.proceed false true, sh, ps, count + 1)
      | GrabStatus.error :: _ => some (.capFail, sh, ps, count + 1)
      | GrabStatus.timeout :: rest =>
        if ps.haveFrame then
          some (.proceed true false, sh,
            { haveFrame := ps.haveFrame, frameIndex := rewindIdx ps.frameIndex cfg.maxFrames },
            count)
        else capLoop cfg budget count ps sh rest
      | GrabStatus.reinit :: rest =>
        if cfg.reinitOk = false then some (.capFail, pausedSet sh, ps, count)
        else if cfg.frameSize < cfg.maxFrameSize then some (.capFail, pausedSet sh, ps, count)
        else capLoop cfg budget count ps (pausedClear (pausedSet sh)) rest

/-- Lines 325-330: the frame descriptor payload fields are written (type,
width, height, stride, pitch, dataPos); the descriptor's flags byte is not
touched here. -/
def writeDesc (cfg : Config) (target : Nat) (sh : Shared) : Shared :=
  { sh with frame :=
    { ftype := cfg.ftype, width := cfg.fwidth, height := cfg.fheight,
      stride := cfg.fstride, pitch := cfg.fpitch, dataPos := target,
      flags := sh.frame.flags } }

/-- Lines 303-350 of `Service::Process`, after the capture loop decided the
cycle kind.  On a new frame, `GetFrame` writes the pixel data into slot
`m_frameIndex` BEFORE the UPDATE busy-wait; then the descriptor payload is
written, the index advanced, and UPDATE set.  On a repeat, only the wait and
the UPDATE set happen.  Successful paths end with the interlocked AND that
keeps only the RESTART bit of the global flags. -/
def afterCapture (cfg : Config) (r : CapResult) (sh : Shared) (ps : ProdState)
    (acts : List CAct) : Option (Outcome × Shared × ProdState × List Ev) :=
  match r with
  | .capFail => some (.failure, sh, ps, [])
  | .exhausted => some (.failure, sh, ps, [])
  | .proceed rep cOnly =>
    if cOnly then some (.success, finalAnd sh, ps, [])
    else if rep then
      match spinWait sh acts with
      | none => none
      | some sh1 =>
        some (.success, finalAnd (setUpd sh1), ps,
          [Ev.waitExit (updBit sh1), Ev.setUpdate (updBit sh1) (restartBit sh1)])
    else
      if cfg.getFrameOk = false then
        some (.getFrameFailed, sh, ps,
          [Ev.pixelWrite (slotOffset cfg ps.frameIndex.toNat) sh.frame.dataPos
            (updBit sh) (restartBit sh)])
      else
        match spinWait sh acts with
        | none => none
        | some sh1 =>
          some (.success,
            finalAnd (setUpd (writeDesc cfg (slotOffset cfg ps.frameIndex.toNat) sh1)),
            { haveFrame := true, frameIndex := advanceIdx ps.frameIndex cfg.maxFrames },
            [Ev.pixelWrite (slotOffset cfg ps.frameIndex.toNat) sh.frame.dataPos
               (updBit sh) (restartBit sh),
             Ev.waitExit (updBit sh1),
             Ev.descWrite (updBit sh1) (restartBit sh1),
             Ev.setUpdate (updBit sh1) (restartBit sh1)])

/-- The consumer schedule for one `Process` cycle: actions taken before the
cycle starts, the sequence of `Capture()` results, and the actions taken at
the iterations of the publish busy-wait. -/
structure CycleEnv where
  preActs : List CAct
  captures : List GrabStatus
  waitActs : List CAct
deriving DecidableEq

def processBody (cfg : Config) (sh : Shared) (ps : ProdState) (env : CycleEnv) :
    Option (Outcome × Shared × ProdState × List Ev) :=
  match capLoop cfg 2 0 ps sh env.captures with
  | none => none
  | some (r, sh1, ps1, _) => afterCapture cfg r sh1 ps1 env.waitActs

/-- One `Service::Process` cycle (lines 169-355).  The consumer-RESTART handler
runs first: reinitialize, re-validate the maximum frame size against the fixed
slot size, then clear the RESTART bit; a failure returns false immediately. -/
def processCycle (cfg : Config) (sh : Shared) (ps : ProdState) (env : CycleEnv) :
    Option (Outcome × Shared × ProdState × List Ev) :=
  if restartBit sh then
    if cfg.reinitOk = false then some (.failure, sh, ps, [])
    else if cfg.frameSize < cfg.maxFrameSize then some (.failure, sh, ps, [])
    else processBody cfg (clearRestart sh) ps env
  else processBody cfg sh ps env

/-- A sequence of `Process` cycles; the consumer may act between cycles
(`preActs`).  Traces are concatenated. -/
def processRun (cfg : Config) : Shared → ProdState → List CycleEnv →
    Option (Shared × ProdState × List Ev)
  | sh, ps, [] => some (sh, ps, [])
  | sh, ps, e :: rest =>
    match processCycle cfg (applyActs e.preActs sh) ps e with
    | none => none
    | some (_, sh1, ps1, tr) =>
      match processRun cfg sh1 ps1 rest with
      | none => none
      | some (sh2, ps2, tr2) => some (sh2, ps2, tr ++ tr2)

/- ------------------------------------------------------------------ -/
/- Claim-level predicates on traces                                    -/
/- ------------------------------------------------------------------ -/

/-- An event violating claim C1 as stated: a pixel write at the advertised
`dataPos`, or a descriptor payload write, or an UPDATE set, while the previous
UPDATE is still set and RESTART is not raised. -/
def evViolatesC1 : Ev → Bool
  | .pixelWrite t a u r => t == a && u && !r
  | .descWrite u r => u && !r
  | .setUpdate u r => u && !r
  | .waitExit _ => false

def c1Holds (tr : List Ev) : Bool := tr.all fun e => !evViolatesC1 e

/-- The amended handshake safety: descriptor payload writes and UPDATE sets
only happen with the previous UPDATE already acknowledged, unless RESTART is
raised.  (Pixel writes are deliberately not covered: see the C1 counterexample.) -/
def descSafe : Ev → Prop
  | .descWrite u r => u = false ∨ r = true
  | .setUpdate u r => u = false ∨ r = true
  | _ => True

def isRestartExit : Ev → Bool
  | .waitExit true => true
  | _ => false

def isPayloadWrite : Ev → Bool
  | .descWrite _ _ => true
  | .setUpdate _ _ => true
  | _ => false

/-- Claim C2 as stated: after a publish wait that was unblocked by RESTART
(exited with UPDATE still set), no descriptor payload write and no UPDATE set
occur. -/
def noPayloadAfterRestartExit : List Ev → Bool
  | [] => true
  | e :: rest =>
    if isRestartExit e then
      (rest.all fun x => !isPayloadWrite x) && noPayloadAfterRestartExit rest
    else noPayloadAfterRestartExit rest

/-- Claim C3 as stated, for one concrete `(hdrSize, maxFrames, base, size)`:
all offsets multiples of 128, the per-slot size equal to
`align_down((size - framesOffset) / maxFrames, 128)`, and header, cursor
region and frame slots pairwise non-overlapping and inside the mapped region
(the regions are laid out in increasing offset order, so ordering plus
containment expresses non-overlap). -/
def layoutClaim (hdrSize maxFrames base size : Nat) : Prop :=
  (initPointers hdrSize maxFrames base size).cursorOffset % 128 = 0
  ∧ (initPointers hdrSize maxFrames base size).framesOffset % 128 = 0
  ∧ (initPointers hdrSize maxFrames base size).frameSize % 128 = 0
  ∧ (initPointers hdrSize maxFrames base size).frameSize
      = alignDn ((size - (initPointers hdrSize maxFrames base size).framesOffset) / maxFrames)
  ∧ hdrSize ≤ (initPointers hdrSize maxFrames base size).cursorOffset
  ∧ (initPointers hdrSize maxFrames base size).cursorOffset + 1048576
      ≤ (initPointers hdrSize maxFrames base size).framesOffset
  ∧ (initPointers hdrSize maxFrames base size).cursorOffset + 1048576 ≤ size
  ∧ ∀ i ∈ List.range maxFrames,
      ((initPointers hdrSize maxFrames base size).framesOffset
        + i * (initPointers hdrSize maxFrames base size).frameSize) % 128 = 0
      ∧ (initPointers hdrSize maxFrames base size).framesOffset
        + (i + 1) * (initPointers hdrSize maxFrames base size).frameSize ≤ size

/- ------------------------------------------------------------------ -/
/- Cursor channel: staging (Process lines 275-301) and one drain       -/
/- iteration of CursorThread (lines 357-412)                           -/
/- ------------------------------------------------------------------ -/

/-- The producer-internal staging struct `m_cursorInfo`. -/
structure CursorStage where
  hasPos : Bool
  x : Int
  y : Int
  visible : Bool
  hasShape : Bool
  dataSize : Nat
  ctype : Nat
  w : Nat
  h : Nat
  pitch : Nat
  shape : Nat
deriving DecidableEq

/-- One `CursorInfo` delta returned by `m_capture->GetCursor()`. -/
structure CursorDelta where
  updated : Bool
  hasPos : Bool
  x : Int
  y : Int
  hasShape : Bool
  dataSize : Nat
  ctype : Nat
  w : Nat
  h : Nat
  pitch : Nat
  shape : Nat
  visible : Bool
deriving DecidableEq

/-- The staging merge done under the critical section in `Service::Process`
(lines 277-300): position fields if the delta has a position, shape fields if
it has a shape, and the visibility always. -/
def stageCursor (st : CursorStage) (d : CursorDelta) : CursorStage :=
  if d.updated = false then st
  else
    let st1 := if d.hasPos then { st with hasPos := true, x := d.x, y := d.y } else st
    let st2 :=
      if d.hasShape then
        { st1 with hasShape := true, dataSize := d.dataSize, ctype := d.ctype,
                   w := d.w, h := d.h, pitch := d.pitch, shape := d.shape }
      else st1
    { st2 with visible := d.visible }

/-- The `KVMFRCursor` descriptor embedded in the shared header.
Modelled from the spec: `common/KVMFR.h` is not under src/; the flags byte has
POS, SHAPE, VISIBLE and UPDATE bits (modelled as separate fields; no claim
depends on their bit positions), and the shape version counter is the
monotonically increasing counter of §3 ("never wraps meaningfully within a
session", hence `Nat`). -/
structure KVMFRCursor where
  flagPos : Bool
  flagShape : Bool
  flagVisible : Bool
  flagUpdate : Bool
  x : Int
  y : Int
  ctype : Nat
  width : Nat
  height : Nat
  pitch : Nat
  dataPos : Nat
  version : Nat
deriving DecidableEq

/-- Cursor-channel events, for the ordering claim of C9. -/
inductive CEv
  | posWrite
  | versionBump
  | shapeWrite
  | shapeCopy
  | setCursorUpdate
deriving DecidableEq

structure DrainResult where
  st : CursorStage
  c : KVMFRCursor
  mem : Nat
  tr : List CEv
deriving DecidableEq

/-- Lines 374-387: publish a staged position (POS bit, x, y, VISIBLE bit). -/
def drainPos (st : CursorStage) (c : KVMFRCursor) :
    CursorStage × KVMFRCursor × List CEv :=
  if st.hasPos then
    ({ st with hasPos := false },
     { c with flagPos := true, x := st.x, y := st.y, flagVisible := st.visible },
     [CEv.posWrite])
  else (st, c, [])

/-- Lines 389-408: publish a staged shape.  The staged flag is cleared first;
if the shape exceeds the fixed cursor region capacity only a diagnostic is
emitted and nothing in shared memory changes; otherwise the SHAPE bit is set,
the version incremented, the shape metadata written with `dataPos` pointing at
the cursor region, and the shape bytes copied there. -/
def drainShape (cap coff : Nat) (st : CursorStage) (c : KVMFRCursor) (mem : Nat) :
    CursorStage × KVMFRCursor × Nat × List CEv :=
  if st.hasShape then
    if cap < st.dataSize then
      ({ st with hasShape := false }, c, mem, [])
    else
      ({ st with hasShape := false },
       { c with flagShape := true, version := c.version + 1, ctype := st.ctype,
                width := st.w, height := st.h, pitch := st.pitch, dataPos := coff },
       st.shape,
       [CEv.versionBump, CEv.shapeWrite, CEv.shapeCopy])
  else (st, c, mem, [])

/-- One drain iteration of `Service::CursorThread` after the consumer has
acknowledged (`cursor->flags == 0`): position first, then shape, then
`cursor->flags |= KVMFR_CURSOR_FLAG_UPDATE` last.  `cap` is
`m_cursorDataSize`, `coff` is `m_cursorOffset`, `mem` the cursor region
content (abstracted to a token). -/
def drainCursor (cap coff : Nat) (st : CursorStage) (c : KVMFRCursor) (mem : Nat) :
    DrainResult :=
  let p := drainPos st c
  let s := drainShape cap coff p.1 p.2.1 mem
  { st := s.1
    c := { s.2.1 with flagUpdate := true }
    mem := s.2.2.1
    tr := p.2.2 ++ s.2.2.2 ++ [CEv.setCursorUpdate] }

/- ------------------------------------------------------------------ -/
/- Concrete inputs used by counterexamples and witnesses               -/
/- ------------------------------------------------------------------ -/

def zeroFrame : FrameDesc :=
  { ftype := 0, width := 0, height := 0, stride := 0, pitch := 0, dataPos := 0, flags := 0 }

/-- A small healthy service configuration: 4 slots of 1024 bytes at offset 4096. -/
def smallCfg : Config :=
  { maxFrames := 4, frameSize := 1024, framesOffset := 4096, maxFrameSize := 512,
    ftype := 1, fwidth := 640, fheight := 480, fstride := 640, fpitch := 2560,
    reinitOk := true, getFrameOk := true }

/-- Like `smallCfg` but the backend now reports a maximum frame size larger
than the fixed slot size. -/
def tooBigCfg : Config :=
  { maxFrames := 4, frameSize := 1024, framesOffset := 4096, maxFrameSize := 4000,
    ftype := 1, fwidth := 640, fheight := 480, fstride := 640, fpitch := 2560,
    reinitOk := true, getFrameOk := true }

def freshSh : Shared := { flags := 0, frame := zeroFrame }

def freshPs : ProdState := { haveFrame := false, frameIndex := 0 }

/-- Three cycles: publish a new frame into slot 0, repeat it on a timeout
(rewinding the index to 0), then publish a new frame again.  The consumer
acknowledges during each publish wait but never before `GetFrame` runs, so the
third cycle's pixel write hits the advertised slot while UPDATE is still set. -/
def c1CexEnvs : List CycleEnv :=
  [{ preActs := [], captures := [GrabStatus.ok], waitActs := [] },
   { preActs := [], captures := [GrabStatus.timeout], waitActs := [CAct.clearUpdate] },
   { preActs := [], captures := [GrabStatus.ok], waitActs := [CAct.clearUpdate] }]

/-- The one-cycle run used by the C1 witness: its exact result. -/
def c1WitRes : Shared × ProdState × List Ev :=
  ({ flags := 0,
     frame := { ftype := 1, width := 640, height := 480, stride := 640, pitch := 2560,
                dataPos := 4096, flags := 1 } },
   { haveFrame := true, frameIndex := 1 },
   [Ev.pixelWrite 4096 0 false false, Ev.waitExit false,
    Ev.descWrite false false, Ev.setUpdate false false])

/-- Start state for the C2 counterexample: a frame already published at slot 0
(UPDATE still set), index at 1. -/
def c2CexSh : Shared :=
  { flags := 0,
    frame := { ftype := 1, width := 640, height := 480, stride := 640, pitch := 2560,
               dataPos := 4096, flags := 1 } }

def c2CexPs : ProdState := { haveFrame := true, frameIndex := 1 }

/-- The consumer raises RESTART while the publisher spins on the set UPDATE bit. -/
def c2CexEnv : CycleEnv :=
  { preActs := [], captures := [GrabStatus.ok], waitActs := [CAct.setRestart] }

/-- Shared state with UPDATE and RESTART both set, for the C2 witness. -/
def c2WitSh : Shared :=
  { flags := 1,
    frame := { ftype := 1, width := 640, height := 480, stride := 640, pitch := 2560,
               dataPos := 4096, flags := 1 } }

def c2WitPs : ProdState := { haveFrame := true, frameIndex := 1 }

/-- The trace produced when a new-frame publish runs with UPDATE and RESTART
both already set: the wait exits via RESTART and the payload is written anyway. -/
def c2WitTrace : List Ev :=
  [Ev.pixelWrite 5120 4096 true true, Ev.waitExit true,
   Ev.descWrite true true, Ev.setUpdate true true]

def c2WitSh' : Shared :=
  { flags := 1,
    frame := { ftype := 1, width := 640, height := 480, stride := 640, pitch := 2560,
               dataPos := 5120, flags := 1 } }

def c2WitPs' : ProdState := { haveFrame := true, frameIndex := 2 }

/-- Paused-at-start shared state (flags byte = PAUSED), for the C10 witness. -/
def c10Sh : Shared := { flags := 2, frame := zeroFrame }

def c10Env : CycleEnv := { preActs := [], captures := [GrabStatus.cursor], waitActs := [] }

/-- Restart-requested shared state, for the C7 witness. -/
def c7Sh : Shared := { flags := 1, frame := zeroFrame }

def c7EnvAny : CycleEnv := { preActs := [], captures := [GrabStatus.ok], waitActs := [] }

def c7EnvReinit : CycleEnv := { preActs := [], captures := [GrabStatus.reinit], waitActs := [] }

/-- A cursor staging state with a fitting shape and a position, for C8/C9. -/
def c8Stage : CursorStage :=
  { hasPos := true, x := 10, y := 20, visible := true,
    hasShape := true, dataSize := 4096, ctype := 1, w := 32, h := 32, pitch := 128,
    shape := 7 }

def c8Cursor : KVMFRCursor :=
  { flagPos := false, flagShape := false, flagVisible := false, flagUpdate := false,
    x := 0, y := 0, ctype := 0, width := 0, height := 0, pitch := 0, dataPos := 0,
    version := 5 }

def c9St0 : CursorStage :=
  { hasPos := false, x := 0, y := 0, visible := false,
    hasShape := false, dataSize := 0, ctype := 0, w := 0, h := 0, pitch := 0, shape := 0 }

/-- A position-only delta. -/
def c9DPos : CursorDelta :=
  { updated := true, hasPos := true, x := 10, y := 20, hasShape := false,
    dataSize := 0, ctype := 0, w := 0, h := 0, pitch := 0, shape := 0, visible := true }

/-- A shape delta whose data exceeds the 1 MiB cursor region. -/
def c9DShapeBig : CursorDelta :=
  { updated := true, hasPos := false, x := 0, y := 0, hasShape := true,
    dataSize := 1048577, ctype := 1, w := 1024, h := 256, pitch := 4096, shape := 9,
    visible := true }

/-- A shape delta that fits the cursor region. -/
def c9DShapeFit : CursorDelta :=
  { updated := true, hasPos := false, x := 0, y := 0, hasShape := true,
    dataSize := 4096, ctype := 1, w := 32, h := 32, pitch := 128, shape := 9,
    visible := true }

/- ------------------------------------------------------------------ -/
/- Helper lemmas                                                       -/
/- ------------------------------------------------------------------ -/

theorem alignDn_le (x : Nat) : alignDn x ≤ x := by
  unfold alignDn; omega

theorem alignDn_mod (x : Nat) : alignDn x % 128 = 0 := by
  unfold alignDn; omega

theorem le_alignUp (x : Nat) : x ≤ alignUp x := by
  unfold alignUp alignDn; omega

theorem alignUp_mod (x : Nat) : alignUp x % 128 = 0 := by
  unfold alignUp alignDn; omega

theorem spinWait_some (acts : List CAct) : ∀ (sh sh' : Shared),
    spinWait sh acts = some sh' → updBit sh' = false ∨ restartBit sh' = true := by
  induction acts with
  | nil =>
    intro sh sh' h
    unfold spinWait at h
    by_cases hu : updBit sh = false
    · simp [hu] at h; subst h; exact Or.inl hu
    · by_cases hr : restartBit sh
      · simp [hu, hr] at h; subst h; exact Or.inr hr
      · simp [hu, hr] at h
  | cons a rest ih =>
    intro sh sh' h
    unfold spinWait at h
    by_cases hu : updBit sh = false
    · simp [hu] at h; subst h; exact Or.inl hu
    · by_cases hr : restartBit sh
      · simp [hu, hr] at h; subst h; exact Or.inr hr
      · simp [hu, hr] at h; exact ih _ _ h

theorem spinWait_restart (sh : Shared) (acts : List CAct)
    (hr : restartBit sh = true) : spinWait sh acts = some sh := by
  unfold spinWait
  by_cases hu : updBit sh = false
  · simp [hu]
  · simp [hu, hr]

theorem capLoop_count_le (cfg : Config) (ps : ProdState) :
    ∀ (caps : List GrabStatus) (budget count : Nat) (sh : Shared)
      (r : CapResult) (sh' : Shared) (ps' : ProdState) (n : Nat),
      capLoop cfg budget count ps sh caps = some (r, sh', ps', n) → n ≤ count + 1 := by
  intro caps
  induction caps with
  | nil =>
    intro budget count sh r sh' ps' n h
    unfold capLoop at h
    by_cases hb : budget = 0
    · simp [hb] at h; omega
    · simp [hb] at h
  | cons g rest ih =>
    intro budget count sh r sh' ps' n h
    unfold capLoop at h
    by_cases hb : budget = 0
    · simp [hb] at h; omega
    · simp [hb] at h
      cases g with
      | ok => simp at h; omega
      | cursor => simp at h; omega
      | error => simp at h; omega
      | timeout =>
        simp at h
        by_cases hf : ps.haveFrame
        · simp [hf] at h; omega
        · simp [hf] at h; exact ih budget count sh r sh' ps' n h
      | reinit =>
        simp at h
        by_cases hro : cfg.reinitOk = false
        · simp [hro] at h; omega
        · simp [hro] at h
          by_cases hsz : cfg.frameSize < cfg.maxFrameSize
          · simp [hsz] at h; omega
          · simp [hsz] at h
            exact ih budget count (pausedClear (pausedSet sh)) r sh' ps' n h

theorem afterCapture_safe (cfg : Config) (r : CapResult) (sh : Shared) (ps : ProdState)
    (acts : List CAct) (o : Outcome) (sh' : Shared) (ps' : ProdState) (tr : List Ev)
    (h : afterCapture cfg r sh ps acts = some (o, sh', ps', tr)) :
    ∀ ev ∈ tr, descSafe ev := by
  cases r with
  | capFail =>
    simp [afterCapture] at h
    obtain ⟨_, _, _, htr⟩ := h
    subst htr; simp
  | exhausted =>
    simp [afterCapture] at h
    obtain ⟨_, _, _, htr⟩ := h
    subst htr; simp
  | proceed rep cOnly =>
    cases cOnly with
    | true =>
      simp [afterCapture] at h
      obtain ⟨_, _, _, htr⟩ := h
      subst htr; simp
    | false =>
      cases rep with
      | true =>
        simp [afterCapture] at h
        cases hsw : spinWait sh acts with
        | none => rw [hsw] at h; simp at h
        | some sh1 =>
          rw [hsw] at h; simp at h
          obtain ⟨_, _, _, htr⟩ := h
          subst htr
          intro ev hev
          rcases spinWait_some acts sh sh1 hsw with hu | hr
          · simp at hev
            rcases hev with rfl | rfl
            · simp [descSafe]
            · exact Or.inl hu
          · simp at hev
            rcases hev with rfl | rfl
            · simp [descSafe]
            · exact Or.inr hr
      | false =>
        by_cases hgf : cfg.getFrameOk = false
        · simp [afterCapture, hgf] at h
          obtain ⟨_, _, _, htr⟩ := h
          subst htr
          intro ev hev
          simp at hev; subst hev; simp [descSafe]
        · simp [afterCapture, hgf] at h
          cases hsw : spinWait sh acts with
          | none => rw [hsw] at h; simp at h
          | some sh1 =>
            rw [hsw] at h; simp at h
            obtain ⟨_, _, _, htr⟩ := h
            subst htr
            intro ev hev
            simp at hev
            rcases spinWait_some acts sh sh1 hsw with hu | hr
            · rcases hev with rfl | rfl | rfl | rfl
              · simp [descSafe]
              · simp [descSafe]
              · exact Or.inl hu
              · exact Or.inl hu
            · rcases hev with rfl | rfl | rfl | rfl
              · simp [descSafe]
              · simp [descSafe]
              · exact Or.inr hr
              · exact Or.inr hr

theorem processCycle_safe (cfg : Config) (sh : Shared) (ps : ProdState) (env : CycleEnv)
    (o : Outcome) (sh' : Shared) (ps' : ProdState) (tr : List Ev)
    (h : processCycle cfg sh ps env = some (o, sh', ps', tr)) :
    ∀ ev ∈ tr, descSafe ev := by
  unfold processCycle at h
  have body : ∀ (sh0 : Shared),
      processBody cfg sh0 ps env = some (o, sh', ps', tr) → ∀ ev ∈ tr, descSafe ev := by
    intro sh0 hb
    unfold processBody at hb
    cases hcl : capLoop cfg 2 0 ps sh0 env.captures with
    | none => rw [hcl] at hb; simp at hb
    | some q =>
      rw [hcl] at hb; simp at hb
      obtain ⟨r, sh1, ps1, n⟩ := q
      exact afterCapture_safe cfg r sh1 ps1 env.waitActs o sh' ps' tr hb
  by_cases hr : restartBit sh
  · simp [hr] at h
    by_cases hro : cfg.reinitOk = false
    · simp [hro] at h
      obtain ⟨_, _, _, htr⟩ := h
      subst htr; simp
    · simp [hro] at h
      by_cases hsz : cfg.frameSize < cfg.maxFrameSize
      · simp [hsz] at h
        obtain ⟨_, _, _, htr⟩ := h
        subst htr; simp
      · simp [hsz] at h
        exact body _ h
  · simp [hr] at h
    exact body _ h

theorem processRun_safe (cfg : Config) :
    ∀ (envs : List CycleEnv) (sh : Shared) (ps : ProdState)
      (res : Shared × ProdState × List Ev),
      processRun cfg sh ps envs = some res → ∀ ev ∈ res.2.2, descSafe ev := by
  intro envs
  induction envs with
  | nil =>
    intro sh ps res h
    simp [processRun] at h
    subst h; simp
  | cons e rest ih =>
    intro sh ps res h
    unfold processRun at h
    cases hc : processCycle cfg (applyActs e.preActs sh) ps e with
    | none => rw [hc] at h; simp at h
    | some q =>
      rw [hc] at h
      obtain ⟨o, sh1, ps1, tr⟩ := q
      simp at h
      cases hrr : processRun cfg sh1 ps1 rest with
      | none => rw [hrr] at h; simp at h
      | some res2 =>
        rw [hrr] at h; simp at h
        obtain ⟨sh2, ps2, tr2⟩ := res2
        intro ev hev
        rw [← h] at hev
        simp at hev
        rcases hev with hev | hev
        · exact processCycle_safe cfg (applyActs e.preActs sh) ps e o sh1 ps1 tr hc ev hev
        · exact ih sh1 ps1 (sh2, ps2, tr2) hrr ev (by simpa using hev)

theorem afterCapture_success_finalAnd (cfg : Config) (r : CapResult) (sh : Shared)
    (ps : ProdState) (acts : List CAct) (sh' : Shared) (ps' : ProdState) (tr : List Ev)
    (h : afterCapture cfg r sh ps acts = some (.success, sh', ps', tr)) :
    ∃ s0 : Shared, sh' = finalAnd s0 := by
  cases r with
  | capFail => simp [afterCapture] at h
  | exhausted => simp [afterCapture] at h
  | proceed rep cOnly =>
    cases cOnly with
    | true =>
      simp [afterCapture] at h
      exact ⟨sh, h.1.symm⟩
    | false =>
      cases rep with
      | true =>
        simp [afterCapture] at h
        cases hsw : spinWait sh acts with
        | none => rw [hsw] at h; simp at h
        | some sh1 =>
          rw [hsw] at h; simp at h
          exact ⟨setUpd sh1, h.1.symm⟩
      | false =>
        by_cases hgf : cfg.getFrameOk = false
        · simp [afterCapture, hgf] at h
        · simp [afterCapture, hgf] at h
          cases hsw : spinWait sh acts with
          | none => rw [hsw] at h; simp at h
          | some sh1 =>
            rw [hsw] at h; simp at h
            exact ⟨_, h.1.symm⟩

theorem processCycle_success_finalAnd (cfg : Config) (sh : Shared) (ps : ProdState)
    (env : CycleEnv) (sh' : Shared) (ps' : ProdState) (tr : List Ev)
    (h : processCycle cfg sh ps env = some (.success, sh', ps', tr)) :
    ∃ s0 : Shared, sh' = finalAnd s0 := by
  unfold processCycle at h
  have body : ∀ (sh0 : Shared), processBody cfg sh0 ps env = some (.success, sh', ps', tr) →
      ∃ s0 : Shared, sh' = finalAnd s0 := by
    intro sh0 hb
    unfold processBody at hb
    cases hcl : capLoop cfg 2 0 ps sh0 env.captures with
    | none => rw [hcl] at hb; simp at hb
    | some q =>
      rw [hcl] at hb; simp at hb
      obtain ⟨r, sh1, ps1, n⟩ := q
      exact afterCapture_success_finalAnd cfg r sh1 ps1 env.waitActs sh' ps' tr hb
  by_cases hr : restartBit sh
  · simp [hr] at h
    by_cases hro : cfg.reinitOk = false
    · simp [hro] at h
    · simp [hro] at h
      by_cases hsz : cfg.frameSize < cfg.maxFrameSize
      · simp [hsz] at h
      · simp [hsz] at h; exact body _ h
  · simp [hr] at h
    exact body _ h

theorem land_one_le (x : Nat) : x &&& 1 ≤ 1 := by
  rw [Nat.and_one_is_mod]; omega

theorem land_one_land_two (x : Nat) : (x &&& 1) &&& 2 = 0 := by
  rw [Nat.and_one_is_mod]
  rcases Nat.mod_two_eq_zero_or_one x with h | h <;> rw [h] <;> rfl

theorem land_one_idem (x : Nat) : (x &&& 1) &&& 1 = x &&& 1 := by
  simp only [Nat.and_one_is_mod]
  omega

theorem rewindIdx_zero (n : Nat) : rewindIdx 0 n = (n : Int) - 1 := by
  unfold rewindIdx; simp

theorem rewindIdx_pos (i : Int) (n : Nat) (h : 1 ≤ i) : rewindIdx i n = i - 1 := by
  unfold rewindIdx
  rw [if_neg (by omega)]

theorem rewindIdx_emod (i : Int) (n : Nat) (h0 : 0 ≤ i) (h1 : i < (n : Int)) :
    rewindIdx i n = (i + n - 1) % n := by
  by_cases hz : i = 0
  · subst hz
    rw [rewindIdx_zero]
    have : ((0 : Int) + n - 1) = n - 1 := by ring
    rw [this, Int.emod_eq_of_lt (by omega) (by omega)]
  · have h1' : 1 ≤ i := by omega
    rw [rewindIdx_pos i n h1']
    have : i + (n : Int) - 1 = (i - 1) + (n : Int) * 1 := by ring
    rw [this, Int.add_mul_emod_self_left, Int.emod_eq_of_lt (by omega) (by omega)]

theorem advanceIdx_emod (i : Int) (n : Nat) (h0 : 0 ≤ i) (h1 : i < (n : Int)) :
    advanceIdx i n = (i + 1) % n := by
  unfold advanceIdx
  by_cases he : i + 1 = (n : Int)
  · rw [if_pos he, he, Int.emod_self]
  · rw [if_neg he, Int.emod_eq_of_lt (by omega) (by omega)]

theorem advanceIdx_wrap (n : Nat) : advanceIdx ((n : Int) - 1) n = 0 := by
  unfold advanceIdx
  rw [if_pos (by ring)]

/- ------------------------------------------------------------------ -/
/- Claim theorems                                                      -/
/- ------------------------------------------------------------------ -/

/-- C3 counterexample: at base address 1 (not 128-aligned) and total size 256
(at least the header size 256, as the claim demands), the layout computed by
`InitPointers` does not place the cursor region at a multiple of 128 (its
offset is 383) and the slots do not lie within the mapped region, so the claim
as stated is false. -/
theorem service_C3_counterexample : ¬ layoutClaim 256 2 1 256 := by
  unfold layoutClaim
  decide

/-- C3 (amended): for a 128-byte-aligned base and a total size (below 2^64)
large enough that the frame ring starts inside the region, `InitPointers`
places the cursor region and each of the MAX_FRAMES slots at offsets that are
multiples of 128, with per-slot size
`align_down((size - offset_of_frames) / MAX_FRAMES, 128)`, and the header, the
cursor region, and the frame slots are pairwise non-overlapping and lie within
the mapped region. -/
theorem service_C3_thm (hdrSize maxFrames base size : Nat) (hb : base % 128 = 0)
    (_hm : 1 ≤ maxFrames)
    (hfit : (initPointers hdrSize maxFrames base size).framesOffset ≤ size)
    (hsz : size < 18446744073709551616) :
    layoutClaim hdrSize maxFrames base size := by
  have hA1 : base + hdrSize ≤ alignUp (base + hdrSize) := le_alignUp _
  have hA2 : alignUp (base + hdrSize) % 128 = 0 := alignUp_mod _
  have hB1 : alignUp (base + hdrSize) + 1048576
      ≤ alignUp (alignUp (base + hdrSize) + 1048576) := le_alignUp _
  have hB2 : alignUp (alignUp (base + hdrSize) + 1048576) % 128 = 0 := alignUp_mod _
  have hfo : alignUp (alignUp (base + hdrSize) + 1048576) - base ≤ size := hfit
  have hmod : ((18446744073709551616 + size) -
      (alignUp (alignUp (base + hdrSize) + 1048576) - base)) % 18446744073709551616
      = size - (alignUp (alignUp (base + hdrSize) + 1048576) - base) := by
    omega
  unfold layoutClaim initPointers
  simp only [hmod]
  set A := alignUp (base + hdrSize) with hAdef
  set B := alignUp (A + 1048576) with hBdef
  set q := (size - (B - base)) / maxFrames with hqdef
  have hfsm : alignDn q % 128 = 0 := alignDn_mod q
  have hfsle : alignDn q ≤ q := alignDn_le q
  refine ⟨by omega, by omega, hfsm, by trivial, by omega, by omega, by omega, ?_⟩
  intro i hi
  simp only [List.mem_range] at hi
  have hmul : (i * alignDn q) % 128 = 0 := by
    rw [Nat.mul_mod, hfsm, Nat.mul_zero, Nat.zero_mod]
  constructor
  · omega
  · have h3 : (i + 1) * alignDn q ≤ maxFrames * alignDn q :=
      Nat.mul_le_mul_right _ (by omega)
    have h4 : maxFrames * alignDn q ≤ maxFrames * q :=
      Nat.mul_le_mul_left _ hfsle
    have h5 : maxFrames * q ≤ size - (B - base) := by
      rw [Nat.mul_comm]; exact Nat.div_mul_le_self _ _
    omega

/-- C3 witness: a 128-aligned base and a 3 MiB region with a 256-byte header
and 2 slots satisfy the amended layout claim. -/
theorem service_C3_witness : layoutClaim 256 2 0 3145728 :=
  service_C3_thm 256 2 0 3145728 (by decide) (by decide) (by decide) (by decide)

/-- C6: when the total shared-memory size is smaller than the header structure,
initialization fails with the too-small error for every base, frame count and
backend frame size; the layout (and hence any pointer into the region) is
never formed because `serviceInit` returns before computing it. -/
theorem service_C6_thm (hdrSize maxFrames base size maxFrameSize : Nat)
    (h : size < hdrSize) :
    serviceInit hdrSize maxFrames base size maxFrameSize = .error .shmemTooSmall := by
  unfold serviceInit
  rw [if_pos h]

/-- C6 witness: a 10-byte region is rejected against a 256-byte header. -/
theorem service_C6_witness : serviceInit 256 4 0 10 0 = .error .shmemTooSmall :=
  service_C6_thm 256 4 0 10 0 (by decide)

/-- C7: (1) when the backend's maximum frame size exceeds the computed
per-slot size, initialization fails; (2) the same validation is re-applied in
the consumer-RESTART handler of `Process`, failing the cycle even though the
reinitialize itself succeeded; (3) and in the backend-requested reinit path of
the capture loop, failing the cycle (with PAUSED left set). -/
theorem service_C7_thm :
    (∀ hdrSize maxFrames base size maxFrameSize : Nat, hdrSize ≤ size →
      (initPointers hdrSize maxFrames base size).frameSize < maxFrameSize →
      serviceInit hdrSize maxFrames base size maxFrameSize = .error .frameTooBig)
    ∧ (∀ (cfg : Config) (sh : Shared) (ps : ProdState) (env : CycleEnv),
      restartBit sh = true → cfg.reinitOk = true → cfg.frameSize < cfg.maxFrameSize →
      processCycle cfg sh ps env = some (.failure, sh, ps, []))
    ∧ (∀ (cfg : Config) (sh : Shared) (ps : ProdState) (env : CycleEnv)
        (rest : List GrabStatus),
      restartBit sh = false → env.captures = GrabStatus.reinit :: rest →
      cfg.reinitOk = true → cfg.frameSize < cfg.maxFrameSize →
      processCycle cfg sh ps env = some (.failure, pausedSet sh, ps, [])) := by
  refine ⟨?_, ?_, ?_⟩
  · intro hdrSize maxFrames base size maxFrameSize hle hlt
    unfold serviceInit
    rw [if_neg (by omega), if_pos hlt]
  · intro cfg sh ps env hr hro hlt
    unfold processCycle
    rw [hr]
    simp [hro, hlt]
  · intro cfg sh ps env rest hr hcap hro hlt
    unfold processCycle processBody
    rw [hr, hcap]
    unfold capLoop
    simp [hro, hlt, afterCapture]

/-- C7 witness: the three re-validation failures at concrete inputs: a 3 MiB
region whose slot size 1048448 is below a 2 MB backend frame, and a service
with slot size 1024 against a backend now reporting 4000 bytes, both in the
RESTART handler and in the reinit path. -/
theorem service_C7_witness :
    serviceInit 256 2 0 3145728 2000000 = .error .frameTooBig
    ∧ processCycle tooBigCfg c7Sh freshPs c7EnvAny = some (.failure, c7Sh, freshPs, [])
    ∧ processCycle tooBigCfg freshSh freshPs c7EnvReinit
        = some (.failure, pausedSet freshSh, freshPs, []) :=
  ⟨service_C7_thm.1 256 2 0 3145728 2000000 (by decide) (by decide),
   service_C7_thm.2.1 tooBigCfg c7Sh freshPs c7EnvAny (by decide) (by decide) (by decide),
   service_C7_thm.2.2 tooBigCfg freshSh freshPs c7EnvReinit [] (by decide) (by decide)
     (by decide) (by decide)⟩

/-- C1 counterexample: publish a frame (slot 0), repeat it on a timeout (the
index rewinds to 0), then publish a new frame.  In the third cycle `GetFrame`
writes the pixel data into slot 0 — the byte offset currently advertised in
`dataPos` — before the UPDATE busy-wait runs, while the UPDATE bit of the
repeat is still set and RESTART is clear, so the claim as stated is false. -/
theorem service_C1_counterexample :
    (processRun smallCfg freshSh freshPs c1CexEnvs).map (fun r => c1Holds r.2.2)
      = some false := by decide

/-- C1 (amended): in every sequence of Process cycles, the producer never
writes the frame descriptor payload fields and never sets the frame
descriptor's UPDATE bit while the previous payload's UPDATE bit is still set,
except when the consumer's RESTART bit interrupts the wait; the pixel data at
the advertised `dataPos`, however, can be overwritten while UPDATE is still
set when a repeated-frame cycle (which rewinds the slot index) is followed by
a new-frame cycle, because `GetFrame` writes the slot before the wait. -/
theorem service_C1_thm (cfg : Config) (sh : Shared) (ps : ProdState)
    (envs : List CycleEnv) (res : Shared × ProdState × List Ev)
    (h : processRun cfg sh ps envs = some res) :
    ∀ ev ∈ res.2.2, descSafe ev :=
  processRun_safe cfg envs sh ps res h

/-- C1 witness: a one-cycle run that publishes a frame from a fresh state; its
descriptor write happened with UPDATE clear, as the amended claim demands. -/
theorem service_C1_witness : descSafe (Ev.descWrite false false) :=
  service_C1_thm smallCfg freshSh freshPs
    [{ preActs := [], captures := [GrabStatus.ok], waitActs := [] }]
    c1WitRes (by decide) (Ev.descWrite false false) (by decide)

/-- C2 counterexample: a new-frame publish blocks on the set UPDATE bit; the
consumer raises RESTART during the wait.  The wait is unblocked, but the
producer then still writes the descriptor payload fields and sets the UPDATE
bit, so "does not write the frame descriptor payload fields and does not set
the UPDATE bit" is false on the code. -/
theorem service_C2_counterexample :
    (processCycle smallCfg c2CexSh c2CexPs c2CexEnv).map
      (fun r => noPayloadAfterRestartExit r.2.2.2) = some false := by decide

/-- C2 (amended): raising RESTART unblocks the frame-publish busy-wait
immediately and without clearing UPDATE; the producer then still writes the
frame descriptor payload fields and still sets the UPDATE bit for that publish
attempt (the `break` only exits the wait loop). -/
theorem service_C2_thm :
    (∀ (sh : Shared) (acts : List CAct), restartBit sh = true →
      spinWait sh acts = some sh)
    ∧ (∀ (cfg : Config) (sh : Shared) (ps : ProdState) (acts : List CAct)
        (o : Outcome) (sh' : Shared) (ps' : ProdState) (tr : List Ev),
      cfg.getFrameOk = true →
      afterCapture cfg (.proceed false false) sh ps acts = some (o, sh', ps', tr) →
      Ev.waitExit true ∈ tr →
      Ev.descWrite true true ∈ tr ∧ Ev.setUpdate true true ∈ tr) := by
  constructor
  · intro sh acts hr
    exact spinWait_restart sh acts hr
  · intro cfg sh ps acts o sh' ps' tr hgf h hmem
    have hgf' : ¬ cfg.getFrameOk = false := by simp [hgf]
    simp [afterCapture, hgf'] at h
    cases hsw : spinWait sh acts with
    | none => rw [hsw] at h; simp at h
    | some sh1 =>
      rw [hsw] at h; simp at h
      obtain ⟨_, _, _, htr⟩ := h
      subst htr
      cases hb : updBit sh1 with
      | false =>
        rw [hb] at hmem
        simp at hmem
      | true =>
        have hr : restartBit sh1 = true := by
          rcases spinWait_some acts sh sh1 hsw with h2 | h2
          · rw [hb] at h2; cases h2
          · exact h2
        constructor
        · simp [hb, hr]
        · simp [hb, hr]

/-- C2 witness: with UPDATE and RESTART both set, the wait exits at once, and
the publish attempt's trace contains the payload writes after the
RESTART-unblocked wait exit. -/
theorem service_C2_witness :
    spinWait c2WitSh [] = some c2WitSh
    ∧ (Ev.descWrite true true ∈ c2WitTrace ∧ Ev.setUpdate true true ∈ c2WitTrace) :=
  ⟨service_C2_thm.1 c2WitSh [] (by decide),
   service_C2_thm.2 smallCfg c2WitSh c2WitPs [] .success c2WitSh' c2WitPs' c2WitTrace
     (by decide) (by decide) (by decide)⟩

/-- C4: in every service cycle (a) at most 2 capture attempts consume the
retry budget (in fact at most one is ever counted, since every consuming
result exits the loop); (b) Ok, CursorOnly and Error results consume the
budget count; (c) a Timeout with no previously published frame and a
(successful, still-fitting) ReinitRequested retry without consuming it; and
(d) a capture loop that exits with the budget exhausted and no Ok/CursorOnly
makes the cycle return failure to the caller. -/
theorem service_C4_thm :
    (∀ (cfg : Config) (ps : ProdState) (sh : Shared) (caps : List GrabStatus)
       (r : CapResult) (sh' : Shared) (ps' : ProdState) (n : Nat),
      capLoop cfg 2 0 ps sh caps = some (r, sh', ps', n) → n ≤ 2)
    ∧ (∀ (cfg : Config) (b c : Nat) (ps : ProdState) (sh : Shared)
        (rest : List GrabStatus),
      capLoop cfg (b + 1) c ps sh (GrabStatus.ok :: rest)
          = some (.proceed false false, sh, ps, c + 1)
      ∧ capLoop cfg (b + 1) c ps sh (GrabStatus.cursor :: rest)
          = some (.proceed false true, sh, ps, c + 1)
      ∧ capLoop cfg (b + 1) c ps sh (GrabStatus.error :: rest)
          = some (.capFail, sh, ps, c + 1))
    ∧ (∀ (cfg : Config) (b c : Nat) (ps : ProdState) (sh : Shared)
        (rest : List GrabStatus), ps.haveFrame = false →
      capLoop cfg (b + 1) c ps sh (GrabStatus.timeout :: rest)
          = capLoop cfg (b + 1) c ps sh rest)
    ∧ (∀ (cfg : Config) (b c : Nat) (ps : ProdState) (sh : Shared)
        (rest : List GrabStatus),
      cfg.reinitOk = true → ¬ cfg.frameSize < cfg.maxFrameSize →
      capLoop cfg (b + 1) c ps sh (GrabStatus.reinit :: rest)
          = capLoop cfg (b + 1) c ps (pausedClear (pausedSet sh)) rest)
    ∧ (∀ (cfg : Config) (c : Nat) (ps : ProdState) (sh : Shared)
        (caps : List GrabStatus) (acts : List CAct),
      capLoop cfg 0 c ps sh caps = some (.exhausted, sh, ps, c)
      ∧ afterCapture cfg .exhausted sh ps acts = some (.failure, sh, ps, [])) := by
  refine ⟨?_, ?_, ?_, ?_, ?_⟩
  · intro cfg ps sh caps r sh' ps' n h
    have := capLoop_count_le cfg ps caps 2 0 sh r sh' ps' n h
    omega
  · intro cfg b c ps sh rest
    refine ⟨?_, ?_, ?_⟩ <;> (unfold capLoop; simp)
  · intro cfg b c ps sh rest hf
    conv_lhs => unfold capLoop
    simp [hf]
  · intro cfg b c ps sh rest hro hsz
    conv_lhs => unfold capLoop
    simp [hro, hsz]
  · intro cfg c ps sh caps acts
    constructor
    · unfold capLoop; simp
    · unfold afterCapture; simp

/-- C4 witness: concrete instances — the fresh one-attempt cycle counts one
consuming attempt (≤ 2); a timeout with no prior frame and a passing reinit
leave the loop call unchanged; and the exhausted loop exit yields failure. -/
theorem service_C4_witness :
    (1 : Nat) ≤ 2
    ∧ capLoop smallCfg 2 0 freshPs freshSh [GrabStatus.timeout]
        = capLoop smallCfg 2 0 freshPs freshSh []
    ∧ capLoop smallCfg 2 0 freshPs freshSh [GrabStatus.reinit]
        = capLoop smallCfg 2 0 freshPs (pausedClear (pausedSet freshSh)) []
    ∧ capLoop smallCfg 0 0 freshPs freshSh [] = some (.exhausted, freshSh, freshPs, 0) :=
  ⟨service_C4_thm.1 smallCfg freshPs freshSh [GrabStatus.ok]
      (.proceed false false) freshSh freshPs 1 (by decide),
   service_C4_thm.2.2.1 smallCfg 1 0 freshPs freshSh [] (by decide),
   service_C4_thm.2.2.2.1 smallCfg 1 0 freshPs freshSh [] (by decide) (by decide),
   (service_C4_thm.2.2.2.2 smallCfg 0 freshPs freshSh [] []).1⟩

/-- C5: (a) the rewind and advance operations are exactly decrement/increment
modulo MAX_FRAMES on in-range indices, with index 0 rewinding to
MAX_FRAMES - 1 and index MAX_FRAMES - 1 advancing to 0; (b) a repeated
(Timeout-with-prior-frame) cycle sets the index to exactly the rewound value
(and hence never advances it); (c) the index advances by one modulo MAX_FRAMES
on a successful new-frame cycle; (d) a cursor-only cycle leaves it unchanged. -/
theorem service_C5_thm :
    (∀ (n : Nat) (i : Int), 0 ≤ i → i < (n : Int) →
      rewindIdx i n = (i + n - 1) % n
      ∧ advanceIdx i n = (i + 1) % n
      ∧ rewindIdx 0 n = (n : Int) - 1
      ∧ advanceIdx ((n : Int) - 1) n = 0)
    ∧ (∀ (cfg : Config) (sh : Shared) (ps : ProdState) (env : CycleEnv)
        (o : Outcome) (sh' : Shared) (ps' : ProdState) (tr : List Ev)
        (rest : List GrabStatus),
      restartBit sh = false → env.captures = GrabStatus.timeout :: rest →
      ps.haveFrame = true →
      processCycle cfg sh ps env = some (o, sh', ps', tr) →
      ps'.frameIndex = rewindIdx ps.frameIndex cfg.maxFrames)
    ∧ (∀ (cfg : Config) (sh : Shared) (ps : ProdState) (env : CycleEnv)
        (sh' : Shared) (ps' : ProdState) (tr : List Ev) (rest : List GrabStatus),
      restartBit sh = false → env.captures = GrabStatus.ok :: rest →
      processCycle cfg sh ps env = some (.success, sh', ps', tr) →
      ps'.frameIndex = advanceIdx ps.frameIndex cfg.maxFrames)
    ∧ (∀ (cfg : Config) (sh : Shared) (ps : ProdState) (env : CycleEnv)
        (o : Outcome) (sh' : Shared) (ps' : ProdState) (tr : List Ev)
        (rest : List GrabStatus),
      restartBit sh = false → env.captures = GrabStatus.cursor :: rest →
      processCycle cfg sh ps env = some (o, sh', ps', tr) →
      ps'.frameIndex = ps.frameIndex) := by
  refine ⟨?_, ?_, ?_, ?_⟩
  · intro n i h0 h1
    exact ⟨rewindIdx_emod i n h0 h1, advanceIdx_emod i n h0 h1,
           rewindIdx_zero n, advanceIdx_wrap n⟩
  · intro cfg sh ps env o sh' ps' tr rest hr hcap hf h
    unfold processCycle processBody at h
    rw [hr] at h
    simp only [Bool.false_eq_true, if_false] at h
    rw [hcap] at h
    unfold capLoop at h
    simp [hf] at h
    unfold afterCapture at h
    simp at h
    cases hsw : spinWait sh env.waitActs with
    | none => rw [hsw] at h; simp at h
    | some sh1 =>
      rw [hsw] at h; simp at h
      obtain ⟨_, _, hps, _⟩ := h
      rw [← hps]
  · intro cfg sh ps env sh' ps' tr rest hr hcap h
    unfold processCycle processBody at h
    rw [hr] at h
    simp only [Bool.false_eq_true, if_false] at h
    rw [hcap] at h
    unfold capLoop at h
    simp at h
    unfold afterCapture at h
    by_cases hgf : cfg.getFrameOk = false
    · simp [hgf] at h
    · simp [hgf] at h
      cases hsw : spinWait sh env.waitActs with
      | none => rw [hsw] at h; simp at h
      | some sh1 =>
        rw [hsw] at h; simp at h
        obtain ⟨hsh, hps, htr⟩ := h
        rw [← hps]
  · intro cfg sh ps env o sh' ps' tr rest hr hcap h
    unfold processCycle processBody at h
    rw [hr] at h
    simp only [Bool.false_eq_true, if_false] at h
    rw [hcap] at h
    unfold capLoop at h
    simp at h
    unfold afterCapture at h
    simp at h
    obtain ⟨_, _, hps, _⟩ := h
    rw [← hps]

/-- C5 witness: index 2 of 4 rewinds modulo 4; a repeated cycle at index 1
ends at the rewound index 0; a fresh publish advances 0 to 1; a cursor-only
cycle leaves the index at 0. -/
theorem service_C5_witness :
    rewindIdx 2 4 = ((2 : Int) + (4 : Nat) - 1) % (4 : Nat)
    ∧ (({ haveFrame := true, frameIndex := 0 } : ProdState)).frameIndex
        = rewindIdx (({ haveFrame := true, frameIndex := 1 } : ProdState)).frameIndex
            smallCfg.maxFrames
    ∧ (({ haveFrame := true, frameIndex := 1 } : ProdState)).frameIndex
        = advanceIdx freshPs.frameIndex smallCfg.maxFrames
    ∧ freshPs.frameIndex = freshPs.frameIndex :=
  ⟨(service_C5_thm.1 4 2 (by decide) (by decide)).1,
   service_C5_thm.2.1 smallCfg freshSh { haveFrame := true, frameIndex := 1 }
     { preActs := [], captures := [GrabStatus.timeout], waitActs := [] }
     .success
     ⟨0, ⟨0, 0, 0, 0, 0, 0, 1⟩⟩
     { haveFrame := true, frameIndex := 0 }
     [Ev.waitExit false, Ev.setUpdate false false] []
     (by decide) (by decide) (by decide) (by decide),
   service_C5_thm.2.2.1 smallCfg freshSh freshPs
     { preActs := [], captures := [GrabStatus.ok], waitActs := [] }
     ⟨0, ⟨1, 640, 480, 640, 2560, 4096, 1⟩⟩
     { haveFrame := true, frameIndex := 1 }
     [Ev.pixelWrite 4096 0 false false, Ev.waitExit false,
      Ev.descWrite false false, Ev.setUpdate false false] []
     (by decide) (by decide) (by decide),
   service_C5_thm.2.2.2 smallCfg freshSh freshPs
     { preActs := [], captures := [GrabStatus.cursor], waitActs := [] }
     .success (finalAnd freshSh) freshPs [] []
     (by decide) (by decide) (by decide)⟩

/-- C8: for a drained shape update, if the staged shape fits the fixed cursor
region capacity the shared version counter increases by exactly 1 (and the
SHAPE bit is set); if it exceeds the capacity the update is dropped
non-fatally — the version counter, the shape fields and the cursor region
content are left unchanged — and a pending position update staged in the same
drain is still published. -/
theorem service_C8_thm (cap coff : Nat) (st : CursorStage) (c : KVMFRCursor) (mem : Nat)
    (hs : st.hasShape = true) :
    (st.dataSize ≤ cap →
      (drainCursor cap coff st c mem).c.version = c.version + 1
      ∧ (drainCursor cap coff st c mem).c.flagShape = true
      ∧ (drainCursor cap coff st c mem).st.hasShape = false)
    ∧ (cap < st.dataSize →
      (drainCursor cap coff st c mem).c.version = c.version
      ∧ (drainCursor cap coff st c mem).c.flagShape = c.flagShape
      ∧ (drainCursor cap coff st c mem).c.ctype = c.ctype
      ∧ (drainCursor cap coff st c mem).c.width = c.width
      ∧ (drainCursor cap coff st c mem).c.height = c.height
      ∧ (drainCursor cap coff st c mem).c.pitch = c.pitch
      ∧ (drainCursor cap coff st c mem).c.dataPos = c.dataPos
      ∧ (drainCursor cap coff st c mem).mem = mem
      ∧ (drainCursor cap coff st c mem).st.hasShape = false
      ∧ (st.hasPos = true →
          (drainCursor cap coff st c mem).c.flagPos = true
          ∧ (drainCursor cap coff st c mem).c.x = st.x
          ∧ (drainCursor cap coff st c mem).c.y = st.y)) := by
  constructor
  · intro hle
    have hnlt : ¬ cap < st.dataSize := by omega
    by_cases hp : st.hasPos <;>
      simp [drainCursor, drainPos, drainShape, hs, hp, hnlt]
  · intro hlt
    by_cases hp : st.hasPos <;>
      simp [drainCursor, drainPos, drainShape, hs, hp, hlt]

/-- C8 witness: a staged 4096-byte shape (with a pending position) bumps the
version from 5 to 6, sets SHAPE and clears the staged flag. -/
theorem service_C8_witness :
    (drainCursor 1048576 64 c8Stage c8Cursor 3).c.version = c8Cursor.version + 1
    ∧ (drainCursor 1048576 64 c8Stage c8Cursor 3).c.flagShape = true
    ∧ (drainCursor 1048576 64 c8Stage c8Cursor 3).st.hasShape = false :=
  (service_C8_thm 1048576 64 c8Stage c8Cursor 3 (by decide)).1 (by decide)

/-- C9 counterexample: a position update and an oversized shape update
(1048577 bytes > 1 MiB) staged before the drain: the single publish cycle
does NOT set the SHAPE bit and does NOT increment the version counter, so the
claim as stated (which promises both for any staged shape) is false. -/
theorem service_C9_counterexample :
    ¬ ((drainCursor 1048576 64 (stageCursor (stageCursor c9St0 c9DPos) c9DShapeBig)
          c8Cursor 0).c.flagShape = true
       ∧ (drainCursor 1048576 64 (stageCursor (stageCursor c9St0 c9DPos) c9DShapeBig)
          c8Cursor 0).c.version = c8Cursor.version + 1) := by decide

/-- C9 (amended): if a position update and a shape update whose data fits the
cursor region capacity are both staged before the publisher drains either,
then one drain publishes both: it sets the POS and SHAPE bits, increments the
version counter exactly once, clears both staged flags (so no second publish
carries them again), and the UPDATE bit is set last, after all payload events. -/
theorem service_C9_thm (cap coff : Nat) (st0 : CursorStage) (dp ds : CursorDelta)
    (c : KVMFRCursor) (mem : Nat)
    (h1 : dp.updated = true) (h2 : dp.hasPos = true)
    (h3 : ds.updated = true) (h4 : ds.hasShape = true) (h5 : ds.dataSize ≤ cap) :
    (drainCursor cap coff (stageCursor (stageCursor st0 dp) ds) c mem).c.flagPos = true
    ∧ (drainCursor cap coff (stageCursor (stageCursor st0 dp) ds) c mem).c.flagShape = true
    ∧ (drainCursor cap coff (stageCursor (stageCursor st0 dp) ds) c mem).c.version
        = c.version + 1
    ∧ (drainCursor cap coff (stageCursor (stageCursor st0 dp) ds) c mem).st.hasPos = false
    ∧ (drainCursor cap coff (stageCursor (stageCursor st0 dp) ds) c mem).st.hasShape = false
    ∧ (drainCursor cap coff (stageCursor (stageCursor st0 dp) ds) c mem).c.flagUpdate = true
    ∧ (drainCursor cap coff (stageCursor (stageCursor st0 dp) ds) c mem).tr
        = [CEv.posWrite, CEv.versionBump, CEv.shapeWrite, CEv.shapeCopy,
           CEv.setCursorUpdate] := by
  have hstg : (stageCursor (stageCursor st0 dp) ds).hasPos = true
      ∧ (stageCursor (stageCursor st0 dp) ds).hasShape = true
      ∧ (stageCursor (stageCursor st0 dp) ds).dataSize = ds.dataSize := by
    by_cases ha : dp.hasShape <;> by_cases hb : ds.hasPos <;>
      simp [stageCursor, h1, h2, h3, h4, ha, hb]
  obtain ⟨hsp, hss, hsd⟩ := hstg
  have hnlt : ¬ cap < (stageCursor (stageCursor st0 dp) ds).dataSize := by
    rw [hsd]; omega
  simp [drainCursor, drainPos, drainShape, hsp, hss, hnlt]

/-- C9 witness: the concrete fitting double update publishes both kinds in one
drain with the version bumped once and UPDATE last. -/
theorem service_C9_witness :
    (drainCursor 1048576 64 (stageCursor (stageCursor c9St0 c9DPos) c9DShapeFit)
        c8Cursor 0).c.flagPos = true
    ∧ (drainCursor 1048576 64 (stageCursor (stageCursor c9St0 c9DPos) c9DShapeFit)
        c8Cursor 0).c.flagShape = true
    ∧ (drainCursor 1048576 64 (stageCursor (stageCursor c9St0 c9DPos) c9DShapeFit)
        c8Cursor 0).c.version = c8Cursor.version + 1
    ∧ (drainCursor 1048576 64 (stageCursor (stageCursor c9St0 c9DPos) c9DShapeFit)
        c8Cursor 0).st.hasPos = false
    ∧ (drainCursor 1048576 64 (stageCursor (stageCursor c9St0 c9DPos) c9DShapeFit)
        c8Cursor 0).st.hasShape = false
    ∧ (drainCursor 1048576 64 (stageCursor (stageCursor c9St0 c9DPos) c9DShapeFit)
        c8Cursor 0).c.flagUpdate = true
    ∧ (drainCursor 1048576 64 (stageCursor (stageCursor c9St0 c9DPos) c9DShapeFit)
        c8Cursor 0).tr
        = [CEv.posWrite, CEv.versionBump, CEv.shapeWrite, CEv.shapeCopy,
           CEv.setCursorUpdate] :=
  service_C9_thm 1048576 64 c9St0 c9DPos c9DShapeFit c8Cursor 0
    (by decide) (by decide) (by decide) (by decide) (by decide)

/-- C10: the end-of-cycle flags update is an AND with the RESTART mask — it
clears every bit of the global flags byte except RESTART (in particular
PAUSED), never clears RESTART, and every successful `Process` cycle ends with
the flags in that masked form (PAUSED bit clear, only the RESTART bit possibly
set). -/
theorem service_C10_thm :
    (∀ sh : Shared, (finalAnd sh).flags = sh.flags &&& 1)
    ∧ (∀ sh : Shared, (finalAnd sh).flags &&& 1 = sh.flags &&& 1)
    ∧ (∀ sh : Shared, (finalAnd sh).flags &&& 2 = 0)
    ∧ (∀ (cfg : Config) (sh : Shared) (ps : ProdState) (env : CycleEnv)
        (sh' : Shared) (ps' : ProdState) (tr : List Ev),
      processCycle cfg sh ps env = some (.success, sh', ps', tr) →
      sh'.flags &&& 2 = 0 ∧ sh'.flags &&& 1 = sh'.flags) := by
  refine ⟨fun sh => rfl, fun sh => land_one_idem sh.flags,
    fun sh => land_one_land_two sh.flags, ?_⟩
  intro cfg sh ps env sh' ps' tr h
  obtain ⟨s0, rfl⟩ := processCycle_success_finalAnd cfg sh ps env sh' ps' tr h
  exact ⟨land_one_land_two s0.flags, land_one_idem s0.flags⟩

/-- C10 witness: a successful cursor-only cycle starting with PAUSED set ends
with the flags byte fully masked: PAUSED cleared, only the RESTART bit kept. -/
theorem service_C10_witness :
    (finalAnd c10Sh).flags &&& 2 = 0
    ∧ (finalAnd c10Sh).flags &&& 1 = (finalAnd c10Sh).flags :=
  service_C10_thm.2.2.2 smallCfg c10Sh freshPs c10Env (finalAnd c10Sh) freshPs []
    (by decide)
